import Mathlib

/-!
Verification of the HTTP/1 connection-pool core
(`source/common/http/http1/conn_pool.cc`): the per-connection
`ActiveClient` and its per-exchange `StreamWrapper`.

The embedding is shallow: each C++ handler becomes a Lean function from
the client state to a new state together with the list of externally
visible effects it performs (closing the connection, posting the deferred
`onUpstreamReady` callback, calling `checkForDrained`, the destructor's
`onStreamClosed` notification, forwarding response headers to the inner
decoder, bumping the close-notify stat).  External collaborators that the
file only calls — the runtime feature flag and
`HeaderUtility::shouldCloseConnection` — are parameters of the model.
-/

/-- HTTP protocol versions, as in `envoy/http/protocol.h`. -/
inductive Protocol where
  | Http10
  | Http11
  | Http2
  | Http3
  deriving DecidableEq, Repr

/-- Modelled from the spec: the reset reasons delivered to
`onResetStream` (error, cancellation, protocol error); the enum itself
lives in `envoy/http/codec.h`, outside the excerpt.  The handler ignores
the reason, so only the existence of the type matters. -/
inductive StreamResetReason where
  | LocalReset
  | Overflow
  | RemoteReset
  | ConnectionFailure
  | ConnectionTermination
  | ProtocolError
  deriving DecidableEq, Repr

/-- The two response headers the close decision reads, as returned by
`headers->getConnectionValue()` and `headers->getProxyConnectionValue()`. -/
structure ResponseHeaderMap where
  connectionValue : String
  proxyConnectionValue : String
  deriving DecidableEq, Repr

/-- ASCII lowercasing of one character code, as `absl::ascii_tolower`. -/
def asciiLowerCode (ch : Char) : Nat :=
  if 65 ≤ ch.toNat ∧ ch.toNat ≤ 90 then ch.toNat + 32 else ch.toNat

/-- `absl::EqualsIgnoreCase`: ASCII case-insensitive string equality,
comparing the ASCII-lowercased character codes. -/
def equalsIgnoreCase (a b : String) : Bool :=
  a.data.map asciiLowerCode == b.data.map asciiLowerCode

/-- `Headers::get().ConnectionValues.Close`. -/
def ConnectionValues.Close : String := "close"

/-- `Headers::get().ConnectionValues.KeepAlive`. -/
def ConnectionValues.KeepAlive : String := "keep-alive"

/-- The state of the `StreamWrapper` flags: `encode_complete_`,
`decode_complete_`, `close_connection_`, all initialised to false. -/
structure StreamWrapper where
  encode_complete : Bool
  decode_complete : Bool
  close_connection : Bool
  deriving DecidableEq, Repr

/-- A freshly constructed `StreamWrapper` (all flags false). -/
def StreamWrapper.init : StreamWrapper :=
  { encode_complete := false, decode_complete := false, close_connection := false }

/-- The observable state of the codec client owned by the `ActiveClient`:
its protocol, whether the remote peer already closed
(`remoteClosed()`), and whether `close()` has been called on it. -/
structure CodecClient where
  protocol : Protocol
  remoteClosed : Bool
  closed : Bool
  deriving DecidableEq, Repr

/-- `CodecClient::close()`. -/
def CodecClient.close (cc : CodecClient) : CodecClient :=
  { cc with closed := true }

/-- The `ActiveClient`: one upstream connection, owning its codec client
and at most one live `StreamWrapper` (`std::unique_ptr`, hence
`Option`). -/
structure ActiveClient where
  codec_client : CodecClient
  stream_wrapper : Option StreamWrapper
  deriving DecidableEq, Repr

/-- A fresh `ActiveClient` as built by its constructor: no live stream. -/
def ActiveClient.init (p : Protocol) (remote_closed : Bool) : ActiveClient :=
  { codec_client := { protocol := p, remoteClosed := remote_closed, closed := false },
    stream_wrapper := none }

/-- The third constructor argument of `Envoy::Http::ActiveClient` in
`ActiveClient::ActiveClient`: the concurrent-request limit, the literal
`1` ("HTTP1 always has a concurrent-request-limit of 1 per connection"). -/
def ActiveClient.concurrentRequestLimit : Nat := 1

/-- The externally visible effects a handler can perform.
`postOnUpstreamReady` is the deferred `dispatcher().post` of
`pool->onUpstreamReady()`; `callOnUpstreamReady` would be a synchronous
invocation of the same pool hook (never emitted by the code). -/
inductive Effect where
  | closeConnection
  | postOnUpstreamReady
  | callOnUpstreamReady
  | checkForDrained
  | onStreamClosed (delay : Bool)
  | forwardHeaders (headers : ResponseHeaderMap) (end_stream : Bool)
  | incCloseNotify
  deriving DecidableEq, Repr

/-- Effects of `StreamWrapper::~StreamWrapper()`: exactly one
`onStreamClosed(parent_, true)` notification to the pool. -/
def streamWrapperDestruct : List Effect :=
  [Effect.onStreamClosed true]

/-- `StreamWrapper::onEncodeComplete()`: sets `encode_complete_`. -/
def StreamWrapper.onEncodeComplete (sw : StreamWrapper) : StreamWrapper :=
  { sw with encode_complete := true }

/-- The legacy close heuristic: the condition of the `else` branch of
`StreamWrapper::decodeHeaders` — `Connection: close`, or HTTP/1.0
without `Connection: keep-alive`, or `Proxy-Connection: close`. -/
def shouldCloseLegacy (protocol : Protocol) (headers : ResponseHeaderMap) : Bool :=
  equalsIgnoreCase headers.connectionValue ConnectionValues.Close ||
  (protocol == Protocol.Http10 &&
    !equalsIgnoreCase headers.connectionValue ConnectionValues.KeepAlive) ||
  equalsIgnoreCase headers.proxyConnectionValue ConnectionValues.Close

/-- `StreamWrapper::decodeHeaders`.  `fixedConnectionClose` is the value
of the runtime flag `envoy.reloadable_features.fixed_connection_close`;
`shouldCloseConnection` abstracts `HeaderUtility::shouldCloseConnection`
(defined outside the excerpt).  Returns the updated wrapper and the
effects, ending with the forward of the headers to the wrapped decoder. -/
def StreamWrapper.decodeHeaders (fixedConnectionClose : Bool)
    (shouldCloseConnection : Protocol → ResponseHeaderMap → Bool)
    (protocol : Protocol) (sw : StreamWrapper)
    (headers : ResponseHeaderMap) (end_stream : Bool) :
    StreamWrapper × List Effect :=
  if fixedConnectionClose then
    let cc := shouldCloseConnection protocol headers
    ({ sw with close_connection := cc },
      (if cc then [Effect.incCloseNotify] else []) ++
        [Effect.forwardHeaders headers end_stream])
  else
    if shouldCloseLegacy protocol headers then
      ({ sw with close_connection := true },
        [Effect.incCloseNotify, Effect.forwardHeaders headers end_stream])
    else
      (sw, [Effect.forwardHeaders headers end_stream])

/-- `StreamWrapper::onDecodeComplete()`, acting on the owning client
(the wrapper reaches its own flags through `parent_.stream_wrapper_`).
Sets `decode_complete_ = encode_complete_`; closes the connection when
the response finished before the request, or when a close was requested
or the remote already closed; otherwise posts the deferred
`onUpstreamReady`, destroys the wrapper (`stream_wrapper_.reset()`,
running the destructor), then calls `checkForDrained`. -/
def StreamWrapper.onDecodeComplete (c : ActiveClient) : ActiveClient × List Effect :=
  match c.stream_wrapper with
  | none => (c, [])
  | some sw0 =>
    let sw := { sw0 with decode_complete := sw0.encode_complete }
    if !sw.encode_complete then
      ({ c with stream_wrapper := some sw, codec_client := c.codec_client.close },
        [Effect.closeConnection])
    else if sw.close_connection || c.codec_client.remoteClosed then
      ({ c with stream_wrapper := some sw, codec_client := c.codec_client.close },
        [Effect.closeConnection])
    else
      ({ c with stream_wrapper := none },
        Effect.postOnUpstreamReady :: (streamWrapperDestruct ++ [Effect.checkForDrained]))

/-- `StreamWrapper::onResetStream`: unconditionally closes the underlying
connection, ignoring the reason. -/
def StreamWrapper.onResetStream (c : ActiveClient) (_reason : StreamResetReason) :
    ActiveClient × List Effect :=
  ({ c with codec_client := c.codec_client.close }, [Effect.closeConnection])

/-- `ActiveClient::closingWithIncompleteStream()`:
`stream_wrapper_ != nullptr && !stream_wrapper_->decode_complete_`. -/
def ActiveClient.closingWithIncompleteStream (c : ActiveClient) : Bool :=
  match c.stream_wrapper with
  | some sw => !sw.decode_complete
  | none => false

/-- `ActiveClient::newStreamEncoder`: `ASSERT(!stream_wrapper_)` then
install a fresh wrapper.  `none` models the assertion firing. -/
def ActiveClient.newStreamEncoder (c : ActiveClient) : Option ActiveClient :=
  match c.stream_wrapper with
  | some _ => none
  | none => some { c with stream_wrapper := some StreamWrapper.init }

/-- The operations a driver can perform on one `ActiveClient`. -/
inductive Op where
  | newStream
  | encodeComplete
  | decodeHeaders (fixedConnectionClose : Bool) (headers : ResponseHeaderMap)
      (end_stream : Bool)
  | decodeComplete
  | resetStream (reason : StreamResetReason)
  deriving Repr

/-- One operation step.  `none` marks a precondition violation: calling a
wrapper method with no live wrapper, `newStreamEncoder` with one live
(its `ASSERT`), or a second `onDecodeComplete`
(`ASSERT(!decode_complete_)`). -/
def step (shouldCloseConnection : Protocol → ResponseHeaderMap → Bool)
    (c : ActiveClient) : Op → Option (ActiveClient × List Effect)
  | Op.newStream =>
      (c.newStreamEncoder).map (fun c2 => (c2, []))
  | Op.encodeComplete =>
      match c.stream_wrapper with
      | none => none
      | some sw =>
        some ({ c with stream_wrapper := some sw.onEncodeComplete }, [])
  | Op.decodeHeaders fixed headers es =>
      match c.stream_wrapper with
      | none => none
      | some sw =>
        let r := StreamWrapper.decodeHeaders fixed shouldCloseConnection
          c.codec_client.protocol sw headers es
        some ({ c with stream_wrapper := some r.1 }, r.2)
  | Op.decodeComplete =>
      match c.stream_wrapper with
      | none => none
      | some sw =>
        if sw.decode_complete then none
        else some (StreamWrapper.onDecodeComplete c)
  | Op.resetStream reason =>
      match c.stream_wrapper with
      | none => none
      | some _ => some (StreamWrapper.onResetStream c reason)

/-- Run a sequence of operations; `none` if any precondition fails. -/
def runOps (shouldCloseConnection : Protocol → ResponseHeaderMap → Bool)
    (c : ActiveClient) : List Op → Option ActiveClient
  | [] => some c
  | op :: ops =>
    match step shouldCloseConnection c op with
    | none => none
    | some (c2, _) => runOps shouldCloseConnection c2 ops

/-- Number of live stream wrappers on a client (0 or 1, since the
wrapper is a `unique_ptr`). -/
def liveStreamCount (c : ActiveClient) : Nat :=
  match c.stream_wrapper with
  | some _ => 1
  | none => 0

/-- Recognises a headers-forwarding effect. -/
def isForwardHeaders : Effect → Bool
  | Effect.forwardHeaders _ _ => true
  | _ => false

/-- C1: at most one exchange is live at a time on a connection: every
reachable state has at most one live `StreamWrapper`, `newStreamEncoder`
refuses (assertion) whenever one is live, and the concurrency limit
passed to the base class is the constant 1. -/
theorem activeClient_concurrency_one :
    (∀ (f : Protocol → ResponseHeaderMap → Bool) (c0 c : ActiveClient) (ops : List Op),
        runOps f c0 ops = some c → liveStreamCount c ≤ 1) ∧
    (∀ (c : ActiveClient) (sw : StreamWrapper),
        c.stream_wrapper = some sw → c.newStreamEncoder = none) ∧
    ActiveClient.concurrentRequestLimit = 1 := by
  refine ⟨?_, ?_, rfl⟩
  · intro f c0 c ops _
    cases h : c.stream_wrapper <;> simp [liveStreamCount, h]
  · intro c sw h
    simp [ActiveClient.newStreamEncoder, h]

/-- Witness for C1 at concrete inputs. -/
theorem activeClient_concurrency_one_witness :
    liveStreamCount (ActiveClient.init Protocol.Http11 false) ≤ 1 ∧
    (ActiveClient.init Protocol.Http11 false
        |>.newStreamEncoder |>.getD (ActiveClient.init Protocol.Http11 false)
        |>.newStreamEncoder) = none := by
  constructor
  · exact activeClient_concurrency_one.1 (fun _ _ => false)
      (ActiveClient.init Protocol.Http11 false)
      (ActiveClient.init Protocol.Http11 false) [] rfl
  · exact activeClient_concurrency_one.2.1
      ((ActiveClient.init Protocol.Http11 false).newStreamEncoder.getD
        (ActiveClient.init Protocol.Http11 false))
      StreamWrapper.init rfl

/-- C2: if `onDecodeComplete` fires while `encode_complete_` is false,
the connection is closed whatever the headers said, and
`decode_complete_` is set to `encode_complete_`, hence stays false. -/
theorem onDecodeComplete_early_response (c : ActiveClient) (sw : StreamWrapper)
    (hw : c.stream_wrapper = some sw) (he : sw.encode_complete = false) :
    (StreamWrapper.onDecodeComplete c).2 = [Effect.closeConnection] ∧
    (StreamWrapper.onDecodeComplete c).1.codec_client.closed = true ∧
    ∃ sw2, (StreamWrapper.onDecodeComplete c).1.stream_wrapper = some sw2 ∧
      sw2.decode_complete = sw.encode_complete ∧ sw2.decode_complete = false := by
  simp only [StreamWrapper.onDecodeComplete, hw, he]
  simp [CodecClient.close]

/-- Witness for C2. -/
theorem onDecodeComplete_early_response_witness :
    (StreamWrapper.onDecodeComplete
        { codec_client := { protocol := Protocol.Http11, remoteClosed := false, closed := false },
          stream_wrapper := some StreamWrapper.init }).2 = [Effect.closeConnection] :=
  (onDecodeComplete_early_response
    { codec_client := { protocol := Protocol.Http11, remoteClosed := false, closed := false },
      stream_wrapper := some StreamWrapper.init }
    StreamWrapper.init rfl rfl).1

/-- C3: on clean completion (request fully sent, no close requested,
remote not closed) the connection stays open, the only pool-readiness
signal is the deferred post (never a synchronous call), and the wrapper
is destroyed — emitting its `onStreamClosed` — before `checkForDrained`
runs, leaving no live wrapper on the client. -/
theorem onDecodeComplete_clean (c : ActiveClient) (sw : StreamWrapper)
    (hw : c.stream_wrapper = some sw) (he : sw.encode_complete = true)
    (hc : sw.close_connection = false) (hr : c.codec_client.remoteClosed = false) :
    (StreamWrapper.onDecodeComplete c).2 =
      [Effect.postOnUpstreamReady, Effect.onStreamClosed true, Effect.checkForDrained] ∧
    Effect.closeConnection ∉ (StreamWrapper.onDecodeComplete c).2 ∧
    Effect.callOnUpstreamReady ∉ (StreamWrapper.onDecodeComplete c).2 ∧
    (StreamWrapper.onDecodeComplete c).1.stream_wrapper = none ∧
    (StreamWrapper.onDecodeComplete c).1.codec_client.closed = c.codec_client.closed := by
  simp only [StreamWrapper.onDecodeComplete, hw, he, hc, hr]
  simp [streamWrapperDestruct]

/-- Witness for C3. -/
theorem onDecodeComplete_clean_witness :
    (StreamWrapper.onDecodeComplete
        { codec_client := { protocol := Protocol.Http11, remoteClosed := false, closed := false },
          stream_wrapper := some { encode_complete := true, decode_complete := false,
                                   close_connection := false } }).2 =
      [Effect.postOnUpstreamReady, Effect.onStreamClosed true, Effect.checkForDrained] :=
  (onDecodeComplete_clean
    { codec_client := { protocol := Protocol.Http11, remoteClosed := false, closed := false },
      stream_wrapper := some { encode_complete := true, decode_complete := false,
                               close_connection := false } }
    { encode_complete := true, decode_complete := false, close_connection := false }
    rfl rfl rfl rfl).1

/-- C4: the `StreamWrapper` destructor — the single destruction path,
whichever branch led to it — issues exactly one `onStreamClosed`
notification and its delay indicator is true. -/
theorem streamWrapperDestruct_single_delayed_close :
    streamWrapperDestruct.count (Effect.onStreamClosed true) = 1 ∧
    (∀ b : Bool, Effect.onStreamClosed b ∈ streamWrapperDestruct → b = true) ∧
    streamWrapperDestruct.filter
      (fun e => match e with | Effect.onStreamClosed _ => true | _ => false) =
      [Effect.onStreamClosed true] := by
  refine ⟨by decide, ?_, by decide⟩
  intro b hb
  simp [streamWrapperDestruct] at hb
  exact hb

/-- Witness for C4. -/
theorem streamWrapperDestruct_single_delayed_close_witness :
    streamWrapperDestruct.count (Effect.onStreamClosed true) = 1 ∧ (true : Bool) = true :=
  ⟨streamWrapperDestruct_single_delayed_close.1,
    streamWrapperDestruct_single_delayed_close.2.1 true (by simp [streamWrapperDestruct])⟩

/-- C5: under the legacy policy, starting from a wrapper whose close flag
is clear, `decodeHeaders` sets `close_connection_` exactly when the
connection header equals "close" case-insensitively, or the protocol is
HTTP/1.0 and the connection header is not "keep-alive"
case-insensitively, or the proxy-connection header equals "close"
case-insensitively. -/
theorem decodeHeaders_legacy_close (protocol : Protocol) (sw : StreamWrapper)
    (hc : sw.close_connection = false) (headers : ResponseHeaderMap) (es : Bool)
    (f : Protocol → ResponseHeaderMap → Bool) :
    (StreamWrapper.decodeHeaders false f protocol sw headers es).1.close_connection = true ↔
      (equalsIgnoreCase headers.connectionValue ConnectionValues.Close = true ∨
       (protocol = Protocol.Http10 ∧
         ¬ equalsIgnoreCase headers.connectionValue ConnectionValues.KeepAlive = true) ∨
       equalsIgnoreCase headers.proxyConnectionValue ConnectionValues.Close = true) := by
  have hres : (StreamWrapper.decodeHeaders false f protocol sw headers es).1.close_connection
      = shouldCloseLegacy protocol headers := by
    rcases Bool.eq_false_or_eq_true (shouldCloseLegacy protocol headers) with hl | hl <;>
      simp [StreamWrapper.decodeHeaders, hl, hc]
  rw [hres]
  simp only [shouldCloseLegacy, Bool.or_eq_true, Bool.and_eq_true, beq_iff_eq,
    Bool.not_eq_true', Bool.not_eq_true]
  tauto

/-- Witness for C5: an HTTP/1.1 response with `Connection: Close`. -/
theorem decodeHeaders_legacy_close_witness :
    (StreamWrapper.decodeHeaders false (fun _ _ => false) Protocol.Http11
        StreamWrapper.init
        { connectionValue := "Close", proxyConnectionValue := "" } false).1.close_connection
      = true :=
  (decodeHeaders_legacy_close Protocol.Http11 StreamWrapper.init rfl
    { connectionValue := "Close", proxyConnectionValue := "" } false
    (fun _ _ => false)).mpr (Or.inl (by decide))

/-- C6: `onResetStream` closes the underlying connection for every client
state and every reset reason, and that is its only effect. -/
theorem onResetStream_always_closes (c : ActiveClient) (reason : StreamResetReason) :
    (StreamWrapper.onResetStream c reason).1.codec_client.closed = true ∧
    (StreamWrapper.onResetStream c reason).2 = [Effect.closeConnection] := by
  constructor
  · rfl
  · rfl

/-- C7: `decodeHeaders` forwards the headers to the wrapped decoder
unchanged, exactly once, under both policies and whatever the close
decision was. -/
theorem decodeHeaders_forwards_once (fixed : Bool)
    (f : Protocol → ResponseHeaderMap → Bool) (protocol : Protocol)
    (sw : StreamWrapper) (headers : ResponseHeaderMap) (es : Bool) :
    (StreamWrapper.decodeHeaders fixed f protocol sw headers es).2.filter isForwardHeaders =
      [Effect.forwardHeaders headers es] := by
  cases fixed
  · by_cases h : shouldCloseLegacy protocol headers = true
    · simp [StreamWrapper.decodeHeaders, h, isForwardHeaders]
    · simp only [Bool.not_eq_true] at h
      simp [StreamWrapper.decodeHeaders, h, isForwardHeaders]
  · by_cases h : f protocol headers = true
    · simp [StreamWrapper.decodeHeaders, h, isForwardHeaders]
    · simp only [Bool.not_eq_true] at h
      simp [StreamWrapper.decodeHeaders, h, isForwardHeaders]

/-- C8: `closingWithIncompleteStream` is true exactly when a live wrapper
exists and its `decode_complete_` flag is false. -/
theorem closingWithIncompleteStream_iff (c : ActiveClient) :
    c.closingWithIncompleteStream = true ↔
      ∃ sw, c.stream_wrapper = some sw ∧ sw.decode_complete = false := by
  cases h : c.stream_wrapper with
  | none => simp [ActiveClient.closingWithIncompleteStream, h]
  | some sw => simp [ActiveClient.closingWithIncompleteStream, h]

/-- C9: after an early-response violation the wrapper stays alive with
`decode_complete_` false, so `closingWithIncompleteStream` reports true
even though the full response was delivered. -/
theorem earlyResponse_closingWithIncompleteStream (c : ActiveClient) (sw : StreamWrapper)
    (hw : c.stream_wrapper = some sw) (he : sw.encode_complete = false) :
    (StreamWrapper.onDecodeComplete c).1.closingWithIncompleteStream = true := by
  simp only [StreamWrapper.onDecodeComplete, hw, he]
  simp [ActiveClient.closingWithIncompleteStream]

/-- Witness for C9. -/
theorem earlyResponse_closingWithIncompleteStream_witness :
    (StreamWrapper.onDecodeComplete
        { codec_client := { protocol := Protocol.Http11, remoteClosed := false, closed := false },
          stream_wrapper := some StreamWrapper.init }).1.closingWithIncompleteStream = true :=
  earlyResponse_closingWithIncompleteStream
    { codec_client := { protocol := Protocol.Http11, remoteClosed := false, closed := false },
      stream_wrapper := some StreamWrapper.init }
    StreamWrapper.init rfl rfl

/-- C10: on every connection-closing path — response before request
complete, close requested, remote already closed, or a reset — the
handler neither posts `onUpstreamReady` nor calls `checkForDrained`; its
only effect is closing the connection. -/
theorem closing_paths_no_ready_no_drained :
    (∀ (c : ActiveClient) (sw : StreamWrapper), c.stream_wrapper = some sw →
      (sw.encode_complete = false ∨ sw.close_connection = true ∨
        c.codec_client.remoteClosed = true) →
      (StreamWrapper.onDecodeComplete c).2 = [Effect.closeConnection] ∧
      Effect.postOnUpstreamReady ∉ (StreamWrapper.onDecodeComplete c).2 ∧
      Effect.checkForDrained ∉ (StreamWrapper.onDecodeComplete c).2) ∧
    (∀ (c : ActiveClient) (reason : StreamResetReason),
      Effect.postOnUpstreamReady ∉ (StreamWrapper.onResetStream c reason).2 ∧
      Effect.checkForDrained ∉ (StreamWrapper.onResetStream c reason).2) := by
  constructor
  · intro c sw hw hcase
    have hfx : (StreamWrapper.onDecodeComplete c).2 = [Effect.closeConnection] := by
      rcases hcase with h | h | h
      · simp only [StreamWrapper.onDecodeComplete, hw, h]
        simp
      · cases he : sw.encode_complete
        · simp only [StreamWrapper.onDecodeComplete, hw, he]
          simp
        · simp only [StreamWrapper.onDecodeComplete, hw, he, h]
          simp
      · cases he : sw.encode_complete
        · simp only [StreamWrapper.onDecodeComplete, hw, he]
          simp
        · simp only [StreamWrapper.onDecodeComplete, hw, he, h]
          simp
    refine ⟨hfx, ?_, ?_⟩ <;> simp [hfx]
  · intro c reason
    constructor <;> simp [StreamWrapper.onResetStream]

/-- Witness for C10. -/
theorem closing_paths_no_ready_no_drained_witness :
    (StreamWrapper.onDecodeComplete
        { codec_client := { protocol := Protocol.Http11, remoteClosed := false, closed := false },
          stream_wrapper := some StreamWrapper.init }).2 = [Effect.closeConnection] :=
  ((closing_paths_no_ready_no_drained.1
    { codec_client := { protocol := Protocol.Http11, remoteClosed := false, closed := false },
      stream_wrapper := some StreamWrapper.init }
    StreamWrapper.init rfl (Or.inl rfl))).1
